import Mathlib

/-!
Verification of the "Document Date Normalizer" (paperless-post-consume,
`src/main.rs`): a shallow embedding of its date-extraction pipeline and of
its linear fetch/patch control flow, together with theorems settling the
specification's claims.

Strings are modelled as `List Char`.  The two hardcoded regular expressions
are embedded as deterministic prefix matchers: since each regex is anchored
at the start, uses fixed-width digit groups and character literals, and ends
in `\s*-?\s*` with nothing after it, the leftmost-first match of the regex
engine coincides with the greedy scan implemented here.
-/

/-- The character class `\s` of the Rust regex crate (Unicode `White_Space`). -/
def isRegexWhitespace (c : Char) : Bool :=
  c.val = 9 || c.val = 10 || c.val = 11 || c.val = 12 || c.val = 13 || c.val = 32 ||
  c.val = 0x85 || c.val = 0xA0 || c.val = 0x1680 ||
  (0x2000 ≤ c.val && c.val ≤ 0x200A) ||
  c.val = 0x2028 || c.val = 0x2029 || c.val = 0x202F || c.val = 0x205F || c.val = 0x3000

/-- Consume exactly `n` ASCII digits (`[0-9]{n}`); return the digits and the rest. -/
def splitDigits : Nat → List Char → Option (List Char × List Char)
  | 0, cs => some ([], cs)
  | _ + 1, [] => none
  | n + 1, c :: cs =>
    if c.isDigit then
      match splitDigits n cs with
      | none => none
      | some (ds, r) => some (c :: ds, r)
    else none

/-- Consume one literal character. -/
def splitChar (x : Char) : List Char → Option (List Char)
  | [] => none
  | c :: cs => if c = x then some cs else none

/-- Greedy `\s*`: the consumed whitespace run and the rest. -/
def splitWs : List Char → List Char × List Char
  | [] => ([], [])
  | c :: cs =>
    if isRegexWhitespace c then
      ((splitWs cs).1.cons c, (splitWs cs).2)
    else ([], c :: cs)

/-- Greedy `-?`: the consumed optional dash and the rest. -/
def splitDash : List Char → List Char × List Char
  | [] => ([], [])
  | c :: cs => if c = '-' then ([c], cs) else ([], c :: cs)

/-- Result of a successful regex match: the full matched span (capture group 0)
and the named captures `year`, `month`, `day`. -/
structure DateMatch where
  matched : List Char
  year : List Char
  month : List Char
  day : List Char
deriving Repr, DecidableEq

/-- First pattern of `DATE_PATTERNS` (main.rs line 19):
`^(?<year>[0-9]{4})-(?<month>[0-9]{2})-(?<day>[0-9]{2})\s*-?\s*`. -/
def matchPattern1 (cs : List Char) : Option DateMatch :=
  match splitDigits 4 cs with
  | none => none
  | some (y, r1) =>
    match splitChar '-' r1 with
    | none => none
    | some r2 =>
      match splitDigits 2 r2 with
      | none => none
      | some (mo, r3) =>
        match splitChar '-' r3 with
        | none => none
        | some r4 =>
          match splitDigits 2 r4 with
          | none => none
          | some (d, r5) =>
            let w1 := splitWs r5
            let da := splitDash w1.2
            let w2 := splitWs da.2
            some { matched := y ++ '-' :: mo ++ '-' :: d ++ w1.1 ++ da.1 ++ w2.1,
                   year := y, month := mo, day := d }

/-- Second pattern of `DATE_PATTERNS` (main.rs line 21):
`^(?<day>[0-9]{2})\.(?<month>[0-9]{2})\.(?<year>[0-9]{4})\s*-?\s*`. -/
def matchPattern2 (cs : List Char) : Option DateMatch :=
  match splitDigits 2 cs with
  | none => none
  | some (d, r1) =>
    match splitChar '.' r1 with
    | none => none
    | some r2 =>
      match splitDigits 2 r2 with
      | none => none
      | some (mo, r3) =>
        match splitChar '.' r3 with
        | none => none
        | some r4 =>
          match splitDigits 4 r4 with
          | none => none
          | some (y, r5) =>
            let w1 := splitWs r5
            let da := splitDash w1.2
            let w2 := splitWs da.2
            some { matched := d ++ '.' :: mo ++ '.' :: y ++ w1.1 ++ da.1 ++ w2.1,
                   year := y, month := mo, day := d }

/-- The ordered pattern list `DATE_PATTERNS` (main.rs lines 17-23). -/
def DATE_PATTERNS : List (List Char → Option DateMatch) :=
  [matchPattern1, matchPattern2]

/-- `DATE_PATTERNS.iter().find_map(|pattern| pattern.captures(&title))`
(main.rs lines 83-85). -/
def findMatch (title : List Char) : Option DateMatch :=
  DATE_PATTERNS.findSome? (fun p => p title)

/-- `format!("{}-{}-{}", &date_parts["year"], &date_parts["month"], &date_parts["day"])`
(main.rs lines 97-100). -/
def createdDate (m : DateMatch) : List Char :=
  m.year ++ '-' :: m.month ++ '-' :: m.day

/-- UTF-8 byte length of a string, as Rust `str::len` computes it. -/
def utf8Len : List Char → Nat
  | [] => 0
  | c :: cs => c.utf8Size + utf8Len cs

/-- Rust byte slicing `&s[n..]`: succeeds exactly when `n` bytes form a whole
number of leading characters, returning the remaining suffix; otherwise the
slice panics (modelled as `none`). -/
def byteSlice : List Char → Nat → Option (List Char)
  | cs, 0 => some cs
  | [], _ + 1 => none
  | c :: cs, n + 1 =>
    if c.utf8Size ≤ n + 1 then byteSlice cs (n + 1 - c.utf8Size) else none

/-- Outcome of the pure extraction step (main.rs lines 83-101). -/
inductive ExtractOutcome where
  | noMatch
  | slicePanic
  | extracted (new_title : List Char) (created_date : List Char)
deriving Repr, DecidableEq

/-- The extraction: find the first pattern match, slice the title at the byte
length of the full matched span (`&document_data.title[date_parts[0].len()..]`,
main.rs line 92), and assemble the created date from the captures. -/
def extractDate (title : List Char) : ExtractOutcome :=
  match findMatch title with
  | none => .noMatch
  | some m =>
    match byteSlice title (utf8Len m.matched) with
    | none => .slicePanic
    | some rest => .extracted rest (createdDate m)

/-- `struct DocumentProperties { title: String, created_date: String }`
(main.rs lines 10-14). -/
structure DocumentProperties where
  title : List Char
  created_date : List Char
deriving Repr, DecidableEq

/-- `const PAPERLESS_API_URL_DEFAULT` (main.rs line 8). -/
def PAPERLESS_API_URL_DEFAULT : List Char := "http://localhost:8000/api/".toList

/-- The digit accumulator behind Rust `i32::from_str`: all characters must be
ASCII digits and at least one must be present. -/
def digitsValAux : List Char → Nat → Option Nat
  | [], acc => some acc
  | c :: cs, acc =>
    if c.isDigit then digitsValAux cs (acc * 10 + (c.toNat - 48)) else none

/-- Rust `str::parse::<i32>`: optional sign, one or more ASCII digits, value
within the `i32` range; anything else is a parse error. -/
def parseI32 (s : List Char) : Option Int :=
  let signed : Int × List Char :=
    match s with
    | '+' :: t => (1, t)
    | '-' :: t => (-1, t)
    | t => (1, t)
  match signed.2 with
  | [] => none
  | ds =>
    match digitsValAux ds 0 with
    | none => none
    | some n =>
      let v : Int := signed.1 * n
      if -(2 ^ 31) ≤ v ∧ v < 2 ^ 31 then some v else none

/-- The process environment as seen through `env::var`: `none` models a
variable that is unset (or unreadable). -/
structure ProcEnv where
  document_id : Option (List Char)
  paperless_api_token : Option (List Char)
  paperless_api_url : Option (List Char)

/-- Outcome of configuration resolution: either a panic (Rust `expect`) with
its message, or the resolved id, token and base url. -/
inductive ConfigResult where
  | panic (msg : List Char)
  | ok (document_id : Int) (api_token : List Char) (api_url : List Char)
deriving Repr, DecidableEq

/-- Configuration resolution (main.rs lines 29-46): `DOCUMENT_ID` must be set
and parse as `i32`, `PAPERLESS_API_TOKEN` must be set, `PAPERLESS_API_URL`
falls back to the default. -/
def resolveConfig (env : ProcEnv) : ConfigResult :=
  match env.document_id with
  | none => .panic ("DOCUMENT_ID environment variable is not set".toList)
  | some s =>
    match parseI32 s with
    | none => .panic ("unable to parse DOCUMENT_ID to integer".toList)
    | some id =>
      match env.paperless_api_token with
      | none => .panic ("PAPERLESS_API_TOKEN environment variable is not set".toList)
      | some tok =>
        match env.paperless_api_url with
        | some url => .ok id tok url
        | none => .ok id tok PAPERLESS_API_URL_DEFAULT

/-- `format!("{api_url}documents/{document_id}/")` (main.rs line 50). -/
def request_url (api_url : List Char) (document_id : Int) : List Char :=
  api_url ++ "documents/".toList ++ (toString document_id).toList ++ "/".toList

/-- Outcome of the shared status-code check (main.rs lines 61-71 and 117-127):
`200` proceeds, anything else panics with a message that embeds the response
body text. -/
inductive StatusCheck where
  | proceed
  | panic (msg : List Char)
deriving Repr, DecidableEq

/-- The `match response.status()` blocks: OK is accepted, UNAUTHORIZED and all
other statuses panic with the response body appended to the message. -/
def checkStatus (status : Nat) (body : List Char) : StatusCheck :=
  if status = 200 then .proceed
  else if status = 401 then
    .panic ("got a 401 response - it seems the api token does not work: ".toList ++ body)
  else
    .panic ("something unexpected happened: ".toList ++ body)

/-- An HTTP response as the program observes it: the status code, the body
text, and the result of deserializing the body into `DocumentProperties`
(`none` models a serde failure). -/
structure HttpResponse where
  status : Nat
  body : List Char
  parsedDoc : Option DocumentProperties

/-- How the process terminates: normal return (exit code 0) or a panic. -/
inductive ProcessExit where
  | success
  | panic (msg : List Char)
deriving Repr, DecidableEq

/-- The exit code of the process: 0 on normal return, Rust's panic exit
code otherwise. -/
def exitCode : ProcessExit → Nat
  | .success => 0
  | .panic _ => 101

/-- Observable effects of one program run: the document request URL used for
the GET (and PATCH), the PATCH payload if a PATCH was issued, and how the
process terminated. -/
structure RunResult where
  requestUrl : Option (List Char)
  patchRequest : Option DocumentProperties
  exit : ProcessExit
deriving Repr, DecidableEq

/-- The whole `main` (main.rs lines 26-128) as a function of the environment
and of the two network interactions: `fetchResult` is the GET outcome
(`none` = transport failure) and `patchResult` the PATCH outcome
(`none` = transport failure, otherwise status code and body text). -/
def runProgram (env : ProcEnv) (fetchResult : Option HttpResponse)
    (patchResult : Option (Nat × List Char)) : RunResult :=
  match resolveConfig env with
  | .panic m => { requestUrl := none, patchRequest := none, exit := .panic m }
  | .ok id _tok url =>
    let rurl := request_url url id
    match fetchResult with
    | none =>
      { requestUrl := some rurl, patchRequest := none,
        exit := .panic ("unable to fetch document data".toList) }
    | some resp =>
      match checkStatus resp.status resp.body with
      | .panic m => { requestUrl := some rurl, patchRequest := none, exit := .panic m }
      | .proceed =>
        match resp.parsedDoc with
        | none =>
          { requestUrl := some rurl, patchRequest := none,
            exit := .panic ("unable to parse document data".toList) }
        | some doc =>
          match extractDate doc.title with
          | .noMatch =>
            { requestUrl := some rurl, patchRequest := none, exit := .success }
          | .slicePanic =>
            { requestUrl := some rurl, patchRequest := none,
              exit := .panic ("byte index is not a char boundary".toList) }
          | .extracted newTitle created =>
            let payload : DocumentProperties := { title := newTitle, created_date := created }
            match patchResult with
            | none =>
              { requestUrl := some rurl, patchRequest := some payload,
                exit := .panic ("unable to set new document properties".toList) }
            | some (st, body) =>
              match checkStatus st body with
              | .proceed =>
                { requestUrl := some rurl, patchRequest := some payload, exit := .success }
              | .panic m =>
                { requestUrl := some rurl, patchRequest := some payload, exit := .panic m }

/-! ## Supporting lemmas -/

theorem splitDigits_spec : ∀ (n : Nat) (cs ys r : List Char),
    splitDigits n cs = some (ys, r) →
    cs = ys ++ r ∧ ys.length = n ∧ ∀ c ∈ ys, c.isDigit = true := by
  intro n
  induction n with
  | zero =>
    intro cs ys r h
    simp [splitDigits] at h
    obtain ⟨h1, h2⟩ := h
    subst h1; subst h2
    simp
  | succ n ih =>
    intro cs ys r h
    match cs with
    | [] => simp [splitDigits] at h
    | c :: cs =>
      simp only [splitDigits] at h
      by_cases hd : c.isDigit
      · rw [if_pos hd] at h
        cases hrec : splitDigits n cs with
        | none => rw [hrec] at h; exact absurd h (by simp)
        | some p =>
          obtain ⟨ds, r2⟩ := p
          rw [hrec] at h
          simp at h
          obtain ⟨hys, hr⟩ := h
          obtain ⟨hcs, hlen, hdig⟩ := ih cs ds r2 hrec
          subst hys
          subst hr
          subst hcs
          refine ⟨by simp, by simp [hlen], ?_⟩
          intro x hx
          rcases List.mem_cons.mp hx with h1 | h2
          · exact h1 ▸ hd
          · exact hdig x h2
      · rw [if_neg hd] at h
        exact absurd h (by simp)

theorem splitChar_spec (x : Char) (cs r : List Char) (h : splitChar x cs = some r) :
    cs = x :: r := by
  match cs with
  | [] => simp [splitChar] at h
  | c :: cs2 =>
    simp only [splitChar] at h
    by_cases hc : c = x
    · rw [if_pos hc] at h
      simp at h
      rw [hc, h]
    · rw [if_neg hc] at h
      exact absurd h (by simp)

theorem splitWs_append : ∀ cs : List Char, (splitWs cs).1 ++ (splitWs cs).2 = cs := by
  intro cs
  induction cs with
  | nil => rfl
  | cons c cs ih =>
    simp only [splitWs]
    by_cases hc : isRegexWhitespace c
    · rw [if_pos hc]
      simpa using ih
    · rw [if_neg hc]
      simp

theorem splitDash_append : ∀ cs : List Char, (splitDash cs).1 ++ (splitDash cs).2 = cs := by
  intro cs
  match cs with
  | [] => rfl
  | c :: cs2 =>
    simp only [splitDash]
    by_cases hc : c = '-'
    · rw [if_pos hc]
      simp [hc]
    · rw [if_neg hc]
      simp

theorem matchPattern1_matched_append (cs : List Char) (m : DateMatch)
    (h : matchPattern1 cs = some m) : ∃ t, cs = m.matched ++ t := by
  unfold matchPattern1 at h
  cases h4 : splitDigits 4 cs with
  | none => rw [h4] at h; exact absurd h (by simp)
  | some p4 =>
  obtain ⟨y, r1⟩ := p4
  rw [h4] at h
  simp only at h
  cases hc1 : splitChar '-' r1 with
  | none => rw [hc1] at h; exact absurd h (by simp)
  | some r2 =>
  rw [hc1] at h
  simp only at h
  cases h5 : splitDigits 2 r2 with
  | none => rw [h5] at h; exact absurd h (by simp)
  | some p5 =>
  obtain ⟨mo, r3⟩ := p5
  rw [h5] at h
  simp only at h
  cases hc2 : splitChar '-' r3 with
  | none => rw [hc2] at h; exact absurd h (by simp)
  | some r4 =>
  rw [hc2] at h
  simp only at h
  cases h6 : splitDigits 2 r4 with
  | none => rw [h6] at h; exact absurd h (by simp)
  | some p6 =>
  obtain ⟨d, r5⟩ := p6
  rw [h6] at h
  simp only at h
  obtain hm := (Option.some.inj h).symm
  refine ⟨(splitWs (splitDash (splitWs r5).2).2).2, ?_⟩
  obtain ⟨e4, _, _⟩ := splitDigits_spec 4 cs y r1 h4
  obtain e1 := splitChar_spec '-' r1 r2 hc1
  obtain ⟨e5, _, _⟩ := splitDigits_spec 2 r2 mo r3 h5
  obtain e2 := splitChar_spec '-' r3 r4 hc2
  obtain ⟨e6, _, _⟩ := splitDigits_spec 2 r4 d r5 h6
  rw [hm]
  simp only
  rw [e4, e1, e5, e2, e6]
  have ew1 := splitWs_append r5
  have ed := splitDash_append (splitWs r5).2
  have ew2 := splitWs_append (splitDash (splitWs r5).2).2
  simp only [List.append_assoc, List.cons_append]
  rw [ew2, ed, ew1]

theorem matchPattern2_matched_append (cs : List Char) (m : DateMatch)
    (h : matchPattern2 cs = some m) : ∃ t, cs = m.matched ++ t := by
  unfold matchPattern2 at h
  cases h4 : splitDigits 2 cs with
  | none => rw [h4] at h; exact absurd h (by simp)
  | some p4 =>
  obtain ⟨d, r1⟩ := p4
  rw [h4] at h
  simp only at h
  cases hc1 : splitChar '.' r1 with
  | none => rw [hc1] at h; exact absurd h (by simp)
  | some r2 =>
  rw [hc1] at h
  simp only at h
  cases h5 : splitDigits 2 r2 with
  | none => rw [h5] at h; exact absurd h (by simp)
  | some p5 =>
  obtain ⟨mo, r3⟩ := p5
  rw [h5] at h
  simp only at h
  cases hc2 : splitChar '.' r3 with
  | none => rw [hc2] at h; exact absurd h (by simp)
  | some r4 =>
  rw [hc2] at h
  simp only at h
  cases h6 : splitDigits 4 r4 with
  | none => rw [h6] at h; exact absurd h (by simp)
  | some p6 =>
  obtain ⟨y, r5⟩ := p6
  rw [h6] at h
  simp only at h
  obtain hm := (Option.some.inj h).symm
  refine ⟨(splitWs (splitDash (splitWs r5).2).2).2, ?_⟩
  obtain ⟨e4, _, _⟩ := splitDigits_spec 2 cs d r1 h4
  obtain e1 := splitChar_spec '.' r1 r2 hc1
  obtain ⟨e5, _, _⟩ := splitDigits_spec 2 r2 mo r3 h5
  obtain e2 := splitChar_spec '.' r3 r4 hc2
  obtain ⟨e6, _, _⟩ := splitDigits_spec 4 r4 y r5 h6
  rw [hm]
  simp only
  rw [e4, e1, e5, e2, e6]
  have ew1 := splitWs_append r5
  have ed := splitDash_append (splitWs r5).2
  have ew2 := splitWs_append (splitDash (splitWs r5).2).2
  simp only [List.append_assoc, List.cons_append]
  rw [ew2, ed, ew1]

theorem matchPattern1_shape (cs : List Char) (m : DateMatch)
    (h : matchPattern1 cs = some m) :
    ∃ a b c3 d t, cs = a :: b :: c3 :: d :: t ∧ c3.isDigit = true := by
  unfold matchPattern1 at h
  cases h4 : splitDigits 4 cs with
  | none => rw [h4] at h; exact absurd h (by simp)
  | some p4 =>
  obtain ⟨y, r1⟩ := p4
  obtain ⟨e4, hlen, hdig⟩ := splitDigits_spec 4 cs y r1 h4
  rcases y with _ | ⟨a, y⟩
  · simp at hlen
  rcases y with _ | ⟨b, y⟩
  · simp at hlen
  rcases y with _ | ⟨c3, y⟩
  · simp at hlen
  rcases y with _ | ⟨d, y⟩
  · simp at hlen
  rcases y with _ | ⟨e, y⟩
  · refine ⟨a, b, c3, d, r1, by simpa using e4, hdig c3 (by simp)⟩
  · simp at hlen

theorem matchPattern2_shape (cs : List Char) (m : DateMatch)
    (h : matchPattern2 cs = some m) :
    ∃ a b t, cs = a :: b :: '.' :: t := by
  unfold matchPattern2 at h
  cases h2 : splitDigits 2 cs with
  | none => rw [h2] at h; exact absurd h (by simp)
  | some p2 =>
  obtain ⟨d, r1⟩ := p2
  rw [h2] at h
  simp only at h
  cases hc : splitChar '.' r1 with
  | none => rw [hc] at h; exact absurd h (by simp)
  | some r2 =>
  obtain ⟨e2, hlen, _⟩ := splitDigits_spec 2 cs d r1 h2
  obtain ec := splitChar_spec '.' r1 r2 hc
  rcases d with _ | ⟨a, d⟩
  · simp at hlen
  rcases d with _ | ⟨b, d⟩
  · simp at hlen
  rcases d with _ | ⟨e, d⟩
  · exact ⟨a, b, r2, by rw [e2, ec]; simp⟩
  · simp at hlen

theorem datePatterns_exclusive (cs : List Char) :
    matchPattern1 cs = none ∨ matchPattern2 cs = none := by
  cases h1 : matchPattern1 cs with
  | none => exact Or.inl rfl
  | some m1 =>
    cases h2 : matchPattern2 cs with
    | none => exact Or.inr rfl
    | some m2 =>
      exfalso
      obtain ⟨a, b, c3, d, t, e1, hdig⟩ := matchPattern1_shape cs m1 h1
      obtain ⟨a2, b2, t2, e2⟩ := matchPattern2_shape cs m2 h2
      rw [e1] at e2
      injection e2 with ha e2
      injection e2 with hb e2
      injection e2 with hc3 e2
      rw [hc3] at hdig
      exact absurd hdig (by decide)

theorem byteSlice_append (xs t : List Char) :
    byteSlice (xs ++ t) (utf8Len xs) = some t := by
  induction xs with
  | nil => simp [byteSlice, utf8Len]
  | cons c xs ih =>
    have hpos : 0 < c.utf8Size := Char.utf8Size_pos c
    obtain ⟨k, hk⟩ : ∃ k, c.utf8Size + utf8Len xs = k + 1 :=
      ⟨c.utf8Size + utf8Len xs - 1, by omega⟩
    show byteSlice (c :: (xs ++ t)) (utf8Len (c :: xs)) = some t
    rw [show utf8Len (c :: xs) = c.utf8Size + utf8Len xs from rfl, hk]
    simp only [byteSlice]
    rw [if_pos (by omega : c.utf8Size ≤ k + 1)]
    rw [show k + 1 - c.utf8Size = utf8Len xs from by omega]
    exact ih

theorem findMatch_inv (cs : List Char) (m : DateMatch) (h : findMatch cs = some m) :
    matchPattern1 cs = some m ∨ matchPattern2 cs = some m := by
  unfold findMatch DATE_PATTERNS at h
  simp only [List.findSome?] at h
  cases h1 : matchPattern1 cs with
  | some m1 =>
    rw [h1] at h
    simp at h
    exact Or.inl (by rw [h])
  | none =>
    rw [h1] at h
    simp at h
    cases h2 : matchPattern2 cs with
    | some m2 => rw [h2] at h; simp at h; exact Or.inr (by rw [h])
    | none => rw [h2] at h; simp at h

theorem findMatch_of_pattern1 (cs : List Char) (m : DateMatch)
    (h : matchPattern1 cs = some m) : findMatch cs = some m := by
  unfold findMatch DATE_PATTERNS
  simp [List.findSome?, h]

theorem findMatch_of_pattern2 (cs : List Char) (m : DateMatch)
    (h : matchPattern2 cs = some m) : findMatch cs = some m := by
  have h1 : matchPattern1 cs = none := by
    rcases datePatterns_exclusive cs with h1 | h2
    · exact h1
    · rw [h] at h2; exact absurd h2 (by simp)
  unfold findMatch DATE_PATTERNS
  simp [List.findSome?, h1, h]

theorem findMatch_none (cs : List Char) (h1 : matchPattern1 cs = none)
    (h2 : matchPattern2 cs = none) : findMatch cs = none := by
  unfold findMatch DATE_PATTERNS
  simp [List.findSome?, h1, h2]

theorem findMatch_extract (title : List Char) (m : DateMatch)
    (h : findMatch title = some m) :
    m.matched ++ title.drop m.matched.length = title ∧
    extractDate title = .extracted (title.drop m.matched.length) (createdDate m) := by
  have happ : ∃ t, title = m.matched ++ t := by
    rcases findMatch_inv title m h with h1 | h2
    · exact matchPattern1_matched_append title m h1
    · exact matchPattern2_matched_append title m h2
  obtain ⟨t, ht⟩ := happ
  have hdrop : title.drop m.matched.length = t := by
    rw [ht]
    exact List.drop_left _ _
  constructor
  · rw [hdrop, ht]
  · have hbs : byteSlice title (utf8Len m.matched) = some t := by
      rw [ht]
      exact byteSlice_append _ _
    rw [hdrop]
    simp [extractDate, h, hbs]

/-! ## Claim theorems -/

/-- C1: For every title matching pattern 1 (four digits, dash, two digits,
dash, two digits at the start, optionally followed by whitespace, an optional
dash separator, and more whitespace), the extraction produces a created date
equal to the string year-month-day built verbatim from the captured groups,
and a new title equal to the remainder of the title immediately after the
full matched span. -/
theorem pattern1_extraction (title : List Char) (m : DateMatch)
    (h : matchPattern1 title = some m) :
    extractDate title =
      .extracted (title.drop m.matched.length)
        (m.year ++ '-' :: m.month ++ '-' :: m.day) ∧
    m.matched ++ title.drop m.matched.length = title := by
  have hf := findMatch_of_pattern1 title m h
  obtain ⟨h1, h2⟩ := findMatch_extract title m hf
  exact ⟨h2, h1⟩

/-- C1 witness: the title "2023-01-05 - Invoice" yields the new title
"Invoice" and the created date "2023-01-05". -/
theorem pattern1_extraction_witness :
    extractDate ("2023-01-05 - Invoice".toList) =
      .extracted ("Invoice".toList) ("2023-01-05".toList) := by
  have h := (pattern1_extraction ("2023-01-05 - Invoice".toList)
    ⟨"2023-01-05 - ".toList, "2023".toList, "01".toList, "05".toList⟩ rfl).1
  rw [h]
  rfl

/-- C2: For every title matching pattern 2 (two digits, dot, two digits, dot,
four digits at the start, optionally followed by whitespace, an optional dash
separator, and more whitespace), the extraction produces a created date with
the captured day.month.year groups reordered to year-month-day, and a new
title equal to the remainder after the full matched span. -/
theorem pattern2_extraction (title : List Char) (m : DateMatch)
    (h : matchPattern2 title = some m) :
    extractDate title =
      .extracted (title.drop m.matched.length)
        (m.year ++ '-' :: m.month ++ '-' :: m.day) ∧
    m.matched ++ title.drop m.matched.length = title := by
  have hf := findMatch_of_pattern2 title m h
  obtain ⟨h1, h2⟩ := findMatch_extract title m hf
  exact ⟨h2, h1⟩

/-- C2 witness: the title "05.01.2023 Invoice" yields the new title "Invoice"
and the created date "2023-01-05". -/
theorem pattern2_extraction_witness :
    extractDate ("05.01.2023 Invoice".toList) =
      .extracted ("Invoice".toList) ("2023-01-05".toList) := by
  have h := (pattern2_extraction ("05.01.2023 Invoice".toList)
    ⟨"05.01.2023 ".toList, "2023".toList, "01".toList, "05".toList⟩ rfl).1
  rw [h]
  rfl

/-- C5: The two date patterns are mutually exclusive: on every title, at most
one of them matches (pattern 1 requires a digit at index 2, pattern 2 requires
a dot there), so the fixed evaluation order never changes the outcome. -/
theorem date_patterns_mutually_exclusive (title : List Char) :
    matchPattern1 title = none ∨ matchPattern2 title = none :=
  datePatterns_exclusive title

/-- C6: The extraction performs no calendar-range validation: whenever a
pattern matches, the created date is assembled verbatim from the captured
year, month and day digit groups, valid calendar date or not. -/
theorem created_date_verbatim (title : List Char) (m : DateMatch)
    (h : findMatch title = some m) :
    extractDate title =
      .extracted (title.drop m.matched.length)
        (m.year ++ '-' :: m.month ++ '-' :: m.day) :=
  (findMatch_extract title m h).2

/-- C6 witness: a title beginning "2023-13-45 " (month 13, day 45) yields the
created date "2023-13-45" although it denotes no valid calendar date. -/
theorem created_date_verbatim_witness :
    extractDate ("2023-13-45 Tax".toList) =
      .extracted ("Tax".toList) ("2023-13-45".toList) := by
  have h := created_date_verbatim ("2023-13-45 Tax".toList)
    ⟨"2023-13-45 ".toList, "2023".toList, "13".toList, "45".toList⟩ rfl
  rw [h]
  rfl

/-- C9: For every title on which a date pattern matches, the byte length of
the full matched span is a valid character boundary of the title, the slice
taken there is total (never the panic outcome), and the matched span
concatenated with the new title reconstitutes the original title. -/
theorem matched_span_char_boundary (title : List Char) (m : DateMatch)
    (h : findMatch title = some m) :
    byteSlice title (utf8Len m.matched) = some (title.drop m.matched.length) ∧
    m.matched ++ title.drop m.matched.length = title ∧
    extractDate title ≠ .slicePanic := by
  obtain ⟨h1, h2⟩ := findMatch_extract title m h
  have hbs : byteSlice title (utf8Len m.matched) = some (title.drop m.matched.length) := by
    conv_lhs => rw [← h1]
    exact byteSlice_append _ _
  refine ⟨hbs, h1, ?_⟩
  rw [h2]
  simp

/-- C9 witness: on the title "2023-01-05 - Ärger" (with a multi-byte
character after the matched span) the slice at the matched byte length is the
suffix "Ärger" and no panic occurs. -/
theorem matched_span_char_boundary_witness :
    byteSlice ("2023-01-05 - Ärger".toList) (utf8Len ("2023-01-05 - ".toList)) =
      some ("Ärger".toList) ∧
    extractDate ("2023-01-05 - Ärger".toList) ≠ .slicePanic := by
  have h := matched_span_char_boundary ("2023-01-05 - Ärger".toList)
    ⟨"2023-01-05 - ".toList, "2023".toList, "01".toList, "05".toList⟩ rfl
  refine ⟨?_, h.2.2⟩
  rw [h.1]
  rfl

/-- Helper: any non-200 status makes the status check panic, with the
response body embedded in the message. -/
theorem checkStatus_panic_of_ne (s : Nat) (b : List Char) (h : s ≠ 200) :
    checkStatus s b =
      .panic (if s = 401 then
          ("got a 401 response - it seems the api token does not work: ".toList ++ b)
        else ("something unexpected happened: ".toList ++ b)) := by
  simp only [checkStatus, if_neg h]
  split <;> rfl

/-- C3: For every title matching neither date pattern (given a resolved
configuration and a successfully fetched and parsed document), the extraction
yields no match, no PATCH is issued, and the process exits with code 0. -/
theorem no_match_no_update (env : ProcEnv) (resp : HttpResponse)
    (patchResult : Option (Nat × List Char)) (doc : DocumentProperties)
    (id : Int) (tok url : List Char)
    (hcfg : resolveConfig env = .ok id tok url)
    (hst : resp.status = 200)
    (hdoc : resp.parsedDoc = some doc)
    (h1 : matchPattern1 doc.title = none)
    (h2 : matchPattern2 doc.title = none) :
    findMatch doc.title = none ∧
    extractDate doc.title = .noMatch ∧
    runProgram env (some resp) patchResult =
      { requestUrl := some (request_url url id), patchRequest := none,
        exit := .success } ∧
    exitCode (runProgram env (some resp) patchResult).exit = 0 := by
  have hf : findMatch doc.title = none := findMatch_none _ h1 h2
  have hx : extractDate doc.title = .noMatch := by simp [extractDate, hf]
  have hcheck : checkStatus resp.status resp.body = .proceed := by
    simp [checkStatus, hst]
  have hrun : runProgram env (some resp) patchResult =
      { requestUrl := some (request_url url id), patchRequest := none,
        exit := .success } := by
    simp [runProgram, hcfg, hcheck, hdoc, hx]
  refine ⟨hf, hx, hrun, ?_⟩
  rw [hrun]
  rfl

/-- C3 witness: the title "Invoice from January" produces no match, no PATCH
payload, and a successful exit. -/
theorem no_match_no_update_witness :
    extractDate ("Invoice from January".toList) = .noMatch ∧
    runProgram ⟨some ("42".toList), some ("tok".toList), some ("u/".toList)⟩
        (some ⟨200, [], some ⟨"Invoice from January".toList, "2020-01-01".toList⟩⟩)
        none =
      { requestUrl := some (request_url ("u/".toList) 42), patchRequest := none,
        exit := .success } := by
  have h := no_match_no_update
    ⟨some ("42".toList), some ("tok".toList), some ("u/".toList)⟩
    ⟨200, [], some ⟨"Invoice from January".toList, "2020-01-01".toList⟩⟩
    none ⟨"Invoice from January".toList, "2020-01-01".toList⟩ 42
    ("tok".toList) ("u/".toList) rfl rfl rfl rfl rfl
  exact ⟨h.2.1, h.2.2.1⟩

/-- C4 counterexample: the title "2023-01-052024-02-06 Invoice" matches
pattern 1, yet the extraction run again on the stripped new title
"2024-02-06 Invoice" matches again, so a second run is not a no-op. -/
theorem second_extraction_matches_again :
    extractDate ("2023-01-052024-02-06 Invoice".toList) =
      .extracted ("2024-02-06 Invoice".toList) ("2023-01-05".toList) ∧
    extractDate ("2024-02-06 Invoice".toList) ≠ .noMatch := by
  constructor
  · rfl
  · intro hfalse
    rw [show extractDate ("2024-02-06 Invoice".toList) =
        .extracted ("Invoice".toList) ("2024-02-06".toList) from rfl] at hfalse
    exact ExtractOutcome.noConfusion hfalse

/-- C4 (amended): for every title on which a date pattern matches, if the
stripped new title itself matches no date pattern, then a second extraction
on it yields no match and a second program run on the updated document issues
no PATCH and exits successfully. -/
theorem second_run_noop_when_stripped_clean (title : List Char) (m : DateMatch)
    (rest created : List Char) (env : ProcEnv) (resp : HttpResponse)
    (patchResult : Option (Nat × List Char)) (doc : DocumentProperties)
    (id : Int) (tok url : List Char)
    (h : findMatch title = some m)
    (hx : extractDate title = .extracted rest created)
    (h1 : matchPattern1 rest = none)
    (h2 : matchPattern2 rest = none)
    (hcfg : resolveConfig env = .ok id tok url)
    (hst : resp.status = 200)
    (hdoc : resp.parsedDoc = some doc)
    (htitle : doc.title = rest) :
    extractDate rest = .noMatch ∧
    runProgram env (some resp) patchResult =
      { requestUrl := some (request_url url id), patchRequest := none,
        exit := .success } := by
  have hf : findMatch rest = none := findMatch_none _ h1 h2
  have hxr : extractDate rest = .noMatch := by simp [extractDate, hf]
  have hcheck : checkStatus resp.status resp.body = .proceed := by
    simp [checkStatus, hst]
  have hxd : extractDate doc.title = .noMatch := by rw [htitle]; exact hxr
  refine ⟨hxr, ?_⟩
  simp [runProgram, hcfg, hcheck, hdoc, hxd]

/-- C4 (amended) witness: after stripping "2023-01-05 - Invoice" to
"Invoice", a second extraction finds no match and a second run is a no-op. -/
theorem second_run_noop_when_stripped_clean_witness :
    extractDate ("Invoice".toList) = .noMatch ∧
    runProgram ⟨some ("9".toList), some ("t".toList), some ("u/".toList)⟩
        (some ⟨200, [], some ⟨"Invoice".toList, "2023-01-05".toList⟩⟩) none =
      { requestUrl := some (request_url ("u/".toList) 9), patchRequest := none,
        exit := .success } :=
  second_run_noop_when_stripped_clean ("2023-01-05 - Invoice".toList)
    ⟨"2023-01-05 - ".toList, "2023".toList, "01".toList, "05".toList⟩
    ("Invoice".toList) ("2023-01-05".toList)
    ⟨some ("9".toList), some ("t".toList), some ("u/".toList)⟩
    ⟨200, [], some ⟨"Invoice".toList, "2023-01-05".toList⟩⟩ none
    ⟨"Invoice".toList, "2023-01-05".toList⟩ 9 ("t".toList) ("u/".toList)
    rfl rfl rfl rfl rfl rfl rfl rfl

/-- Helper: successful configuration resolution, with the api url falling
back to the default when the variable is unset. -/
theorem resolveConfig_ok (env : ProcEnv) (s : List Char) (id : Int)
    (tok : List Char) (hdi : env.document_id = some s)
    (hp : parseI32 s = some id) (htok : env.paperless_api_token = some tok) :
    resolveConfig env =
      .ok id tok (env.paperless_api_url.getD PAPERLESS_API_URL_DEFAULT) := by
  cases hu : env.paperless_api_url with
  | none => simp [resolveConfig, hdi, hp, htok, hu]
  | some u => simp [resolveConfig, hdi, hp, htok, hu]

/-- Helper: once configuration resolves, every control path of the program
uses the document request URL built from the resolved base url and id. -/
theorem runProgram_requestUrl (env : ProcEnv) (fetchResult : Option HttpResponse)
    (patchResult : Option (Nat × List Char)) (id : Int) (tok url : List Char)
    (hok : resolveConfig env = .ok id tok url) :
    (runProgram env fetchResult patchResult).requestUrl =
      some (request_url url id) := by
  unfold runProgram
  rw [hok]
  cases fetchResult with
  | none => rfl
  | some resp =>
    simp only
    cases checkStatus resp.status resp.body with
    | panic m => rfl
    | proceed =>
      cases resp.parsedDoc with
      | none => rfl
      | some doc =>
        simp only
        cases extractDate doc.title with
        | noMatch => rfl
        | slicePanic => rfl
        | extracted nt cd =>
          simp only
          cases patchResult with
          | none => rfl
          | some p =>
            obtain ⟨st, body⟩ := p
            simp only
            cases checkStatus st body with
            | proceed => rfl
            | panic m => rfl

/-- C7: The fetch-response handling accepts exactly HTTP 200 as success; 401
aborts with a message embedding the response body, any other non-200 status
aborts likewise, and in every such case the program issues no PATCH and
terminates by panic. -/
theorem fetch_status_handling (s : Nat) (b : List Char) (env : ProcEnv)
    (resp : HttpResponse) (patchResult : Option (Nat × List Char)) :
    (checkStatus s b = .proceed ↔ s = 200) ∧
    (s = 401 → checkStatus s b =
      .panic ("got a 401 response - it seems the api token does not work: ".toList ++ b)) ∧
    (s ≠ 200 → s ≠ 401 → checkStatus s b =
      .panic ("something unexpected happened: ".toList ++ b)) ∧
    (resp.status ≠ 200 →
      (runProgram env (some resp) patchResult).patchRequest = none ∧
      ∃ msg, (runProgram env (some resp) patchResult).exit = .panic msg) := by
  refine ⟨?_, ?_, ?_, ?_⟩
  · constructor
    · intro h
      by_contra hne
      rw [checkStatus_panic_of_ne s b hne] at h
      exact StatusCheck.noConfusion h
    · intro h
      simp [checkStatus, h]
  · intro h
    subst h
    rfl
  · intro hne200 hne401
    rw [checkStatus_panic_of_ne s b hne200, if_neg hne401]
  · intro hs
    cases hc : resolveConfig env with
    | panic mm =>
      constructor
      · simp [runProgram, hc]
      · exact ⟨mm, by simp [runProgram, hc]⟩
    | ok id tok url =>
      have hck := checkStatus_panic_of_ne resp.status resp.body hs
      constructor
      · simp [runProgram, hc, hck]
      · exact ⟨(if resp.status = 401 then
            ("got a 401 response - it seems the api token does not work: ".toList
              ++ resp.body)
          else ("something unexpected happened: ".toList ++ resp.body)),
          by simp [runProgram, hc, hck]⟩

/-- C7 witness: a 401 fetch response panics with the body embedded in the
message, and a 500 fetch response leads to a run issuing no PATCH. -/
theorem fetch_status_handling_witness :
    checkStatus 401 ("denied".toList) =
      .panic ("got a 401 response - it seems the api token does not work: ".toList
        ++ "denied".toList) ∧
    (runProgram ⟨some ("1".toList), some ("t".toList), some ("u/".toList)⟩
        (some ⟨500, "oops".toList, none⟩) none).patchRequest = none := by
  have h := fetch_status_handling 401 ("denied".toList)
    ⟨some ("1".toList), some ("t".toList), some ("u/".toList)⟩
    ⟨500, "oops".toList, none⟩ none
  exact ⟨h.2.1 rfl, (h.2.2.2 (by decide)).1⟩

/-- C8: `DOCUMENT_ID` resolution aborts exactly when the variable is absent or
its value does not parse as a signed 32-bit integer; when it parses, the
parsed value appears as the numeric document identifier in the request URL. -/
theorem document_id_resolution (env : ProcEnv) (s : List Char) (id : Int)
    (tok : List Char) (fetchResult : Option HttpResponse)
    (patchResult : Option (Nat × List Char)) :
    (env.document_id = none →
      resolveConfig env =
        .panic ("DOCUMENT_ID environment variable is not set".toList)) ∧
    (env.document_id = some s → parseI32 s = none →
      resolveConfig env =
        .panic ("unable to parse DOCUMENT_ID to integer".toList)) ∧
    ((resolveConfig env =
        .panic ("DOCUMENT_ID environment variable is not set".toList) ∨
      resolveConfig env =
        .panic ("unable to parse DOCUMENT_ID to integer".toList)) ↔
      (env.document_id = none ∨
        ∃ s0, env.document_id = some s0 ∧ parseI32 s0 = none)) ∧
    (env.document_id = some s → parseI32 s = some id →
      env.paperless_api_token = some tok →
      (runProgram env fetchResult patchResult).requestUrl =
        some ((env.paperless_api_url.getD PAPERLESS_API_URL_DEFAULT) ++
          "documents/".toList ++ (toString id).toList ++ "/".toList)) := by
  refine ⟨?_, ?_, ?_, ?_⟩
  · intro h
    simp [resolveConfig, h]
  · intro h hp
    simp [resolveConfig, h, hp]
  · cases hdi : env.document_id with
    | none =>
      constructor
      · intro _
        exact Or.inl rfl
      · intro _
        refine Or.inl ?_
        simp [resolveConfig, hdi]
    | some s0 =>
      cases hp : parseI32 s0 with
      | none =>
        constructor
        · intro _
          exact Or.inr ⟨s0, rfl, hp⟩
        · intro _
          refine Or.inr ?_
          simp [resolveConfig, hdi, hp]
      | some v =>
        cases htok : env.paperless_api_token with
        | none =>
          have hcfg : resolveConfig env =
              .panic ("PAPERLESS_API_TOKEN environment variable is not set".toList) := by
            simp [resolveConfig, hdi, hp, htok]
          rw [hcfg]
          constructor
          · rintro (h | h) <;> exact absurd h (by decide)
          · rintro (h | ⟨s1, hs1, hp1⟩)
            · exact Option.noConfusion h
            · obtain rfl : s0 = s1 := Option.some.inj hs1
              rw [hp] at hp1
              exact Option.noConfusion hp1
        | some tk =>
          have hcfg := resolveConfig_ok env s0 v tk hdi hp htok
          rw [hcfg]
          constructor
          · rintro (h | h) <;> exact ConfigResult.noConfusion h
          · rintro (h | ⟨s1, hs1, hp1⟩)
            · exact Option.noConfusion h
            · obtain rfl : s0 = s1 := Option.some.inj hs1
              rw [hp] at hp1
              exact Option.noConfusion hp1
  · intro hdi hp htok
    have hok := resolveConfig_ok env s id tok hdi hp htok
    rw [runProgram_requestUrl env fetchResult patchResult id tok
      (env.paperless_api_url.getD PAPERLESS_API_URL_DEFAULT) hok]
    rfl

/-- C8 witness: with DOCUMENT_ID set to "7" and no base-url variable, the run
uses the URL built from the default base and the parsed id 7. -/
theorem document_id_resolution_witness :
    (runProgram ⟨some ("7".toList), some ("tok".toList), none⟩ none none).requestUrl =
      some ("http://localhost:8000/api/documents/7/".toList) := by
  have h := document_id_resolution ⟨some ("7".toList), some ("tok".toList), none⟩
    ("7".toList) 7 ("tok".toList) none none
  rw [h.2.2.2 rfl rfl rfl]
  rfl

/-- C10: For every title consisting exactly of a matched date span (including
any trailing separator and whitespace the pattern consumes), the new title is
empty and the PATCH payload sent carries that empty title. -/
theorem full_match_empty_title (title : List Char) (m : DateMatch)
    (env : ProcEnv) (resp : HttpResponse) (patchResult : Option (Nat × List Char))
    (doc : DocumentProperties) (id : Int) (tok url : List Char)
    (h : findMatch title = some m)
    (hfull : m.matched = title)
    (hcfg : resolveConfig env = .ok id tok url)
    (hst : resp.status = 200)
    (hdoc : resp.parsedDoc = some doc)
    (htitle : doc.title = title) :
    extractDate title = .extracted [] (createdDate m) ∧
    (runProgram env (some resp) patchResult).patchRequest =
      some { title := [], created_date := createdDate m } := by
  obtain ⟨h1, h2⟩ := findMatch_extract title m h
  have hdropnil : title.drop m.matched.length = [] := by
    rw [hfull]
    simp
  rw [hdropnil] at h2
  have hcheck : checkStatus resp.status resp.body = .proceed := by
    simp [checkStatus, hst]
  have hxd : extractDate doc.title = .extracted [] (createdDate m) := by
    rw [htitle]
    exact h2
  refine ⟨h2, ?_⟩
  cases patchResult with
  | none => simp [runProgram, hcfg, hcheck, hdoc, hxd]
  | some p =>
    obtain ⟨st, body⟩ := p
    cases hcs : checkStatus st body with
    | proceed => simp [runProgram, hcfg, hcheck, hdoc, hxd, hcs]
    | panic mm => simp [runProgram, hcfg, hcheck, hdoc, hxd, hcs]

/-- C10 witness: the title "2023-01-05 - " is matched in full, so the PATCH
payload carries the empty title and the created date "2023-01-05". -/
theorem full_match_empty_title_witness :
    extractDate ("2023-01-05 - ".toList) =
      .extracted [] ("2023-01-05".toList) ∧
    (runProgram ⟨some ("3".toList), some ("t".toList), some ("u/".toList)⟩
        (some ⟨200, [], some ⟨"2023-01-05 - ".toList, "old".toList⟩⟩)
        (some (200, []))).patchRequest =
      some { title := [], created_date := "2023-01-05".toList } := by
  have h := full_match_empty_title ("2023-01-05 - ".toList)
    ⟨"2023-01-05 - ".toList, "2023".toList, "01".toList, "05".toList⟩
    ⟨some ("3".toList), some ("t".toList), some ("u/".toList)⟩
    ⟨200, [], some ⟨"2023-01-05 - ".toList, "old".toList⟩⟩
    (some (200, [])) ⟨"2023-01-05 - ".toList, "old".toList⟩ 3
    ("t".toList) ("u/".toList) rfl rfl rfl rfl rfl rfl
  exact ⟨h.1, h.2⟩
